import Mathlib

/-!
Shallow embedding of the schema-designer core: the schema store
(src/store/schemaStore.ts), the type-compatibility oracle
(utils/typeCompatibility), the relationship-creation logic of the Canvas
component, and the deterministic SQL emitter (utils/scriptGenerator.ts).

Modelling conventions: JS strings are `String`; optional / nullable JS values
are `Option`; the zustand store state is an explicit `SchemaState` record and
every mutation is a pure function `SchemaState → SchemaState`.  UI-only data
(pixel positions, colors) and the localStorage side channel are omitted: no
claim mentions them and positions are floating point.  Non-deterministic
fresh ids (`Date.now()`-based) are passed in as explicit arguments.
-/

namespace VSD

/-- `references?: {table, field}` of a Field (types/design.ts). -/
structure FieldRef where
  table : String
  field : String
  deriving DecidableEq, Repr

/-- Field (types/design.ts).  Optional booleans are modelled as plain `Bool`
(absent = false, matching JS truthiness at every use site). -/
structure Field where
  id : String
  name : String
  type : String
  isPrimaryKey : Bool
  isForeignKey : Bool
  isUnique : Bool
  isNullable : Bool
  defaultValue : Option String
  references : Option FieldRef
  deriving DecidableEq, Repr

/-- RLS policy (types/design.ts); `using` is rendered as `usingClause`. -/
structure Policy where
  id : String
  name : String
  operation : String
  role : String
  usingClause : Option String
  withCheck : Option String
  deriving DecidableEq, Repr

/-- Table (types/design.ts); `position`/`color` omitted (UI-only floats). -/
structure Table where
  id : String
  name : String
  fields : List Field
  enableRLS : Bool
  policies : List Policy
  deriving DecidableEq, Repr

/-- Relationship (types/design.ts); `onDelete`/`onUpdate` omitted (never read
by the store, the canvas logic, or the manual SQL generator). -/
structure Relationship where
  id : String
  source : String
  target : String
  sourceField : String
  targetField : String
  type : String
  deriving DecidableEq, Repr

/-- The zustand store state of schemaStore.ts (persistence fields included). -/
structure SchemaState where
  tables : List Table
  relationships : List Relationship
  selectedTable : Option String
  selectedRelationship : Option String
  currentDesignId : Option String
  currentDesignName : Option String
  deriving DecidableEq, Repr

/-! ## Store mutations (schemaStore.ts) -/

/-- `addTable` (schemaStore.ts): appends to the tables list. -/
def addTable (st : SchemaState) (table : Table) : SchemaState :=
  { st with tables := st.tables ++ [table] }

/-- `updateTable(id, updates)` (schemaStore.ts): guarded no-op for the
auth.users system table; otherwise merges the patch into the matching table.
The JS spread-merge `{...t, ...updates}` is modelled by an arbitrary patch
function applied to the matching table. -/
def updateTable (st : SchemaState) (id : String) (patch : Table → Table) :
    SchemaState :=
  if id == "auth-users-table" then st
  else
    { st with tables := st.tables.map (fun t => if t.id == id then patch t else t) }

/-- `deleteTable(id)` (schemaStore.ts): guarded no-op for the auth.users system
table; otherwise removes the table, filters out relationships touching it, and
clears `selectedTable` when it pointed at the deleted id. -/
def deleteTable (st : SchemaState) (id : String) : SchemaState :=
  if id == "auth-users-table" then st
  else
    { st with
      tables := st.tables.filter (fun t => !(t.id == id)),
      relationships :=
        st.relationships.filter (fun r => !(r.source == id) && !(r.target == id)),
      selectedTable :=
        match st.selectedTable with
        | some s => if s == id then none else some s
        | none => none }

/-- `addField(tableId, field)` (schemaStore.ts). -/
def addField (st : SchemaState) (tableId : String) (field : Field) : SchemaState :=
  { st with
    tables := st.tables.map (fun t =>
      if t.id == tableId then { t with fields := t.fields ++ [field] } else t) }

/-- `deleteField(tableId, fieldId)` (schemaStore.ts): removes the field from
the named table and filters out every relationship whose `sourceField` or
`targetField` is the deleted field id. -/
def deleteField (st : SchemaState) (tableId fieldId : String) : SchemaState :=
  { st with
    tables := st.tables.map (fun t =>
      if t.id == tableId then
        { t with fields := t.fields.filter (fun f => !(f.id == fieldId)) }
      else t),
    relationships := st.relationships.filter (fun r =>
      !(r.sourceField == fieldId || r.targetField == fieldId)) }

/-- `addRelationship(relationship)` (schemaStore.ts lines 125-130): appends
unconditionally — the source performs no validation of any kind here. -/
def addRelationship (st : SchemaState) (relationship : Relationship) : SchemaState :=
  { st with relationships := st.relationships ++ [relationship] }

/-! ## Type compatibility oracle (utils/typeCompatibility) -/

/-- `TYPE_COMPATIBILITY_RULES` (utils/typeCompatibility lines 1-39), as an
association list in source order. -/
def TYPE_COMPATIBILITY_RULES : List (String × List String) :=
  [ ("uuid", ["uuid"]),
    ("bigint", ["bigint", "int", "smallint"]),
    ("int", ["bigint", "int", "smallint"]),
    ("smallint", ["bigint", "int", "smallint"]),
    ("decimal", ["decimal", "numeric", "real", "double precision"]),
    ("numeric", ["decimal", "numeric", "real", "double precision"]),
    ("real", ["decimal", "numeric", "real", "double precision"]),
    ("double precision", ["decimal", "numeric", "real", "double precision"]),
    ("text", ["text", "varchar", "char"]),
    ("varchar", ["text", "varchar", "char"]),
    ("char", ["text", "varchar", "char"]),
    ("timestamp", ["timestamp", "timestamptz"]),
    ("timestamptz", ["timestamp", "timestamptz"]),
    ("date", ["date"]),
    ("time", ["time", "timetz"]),
    ("timetz", ["time", "timetz"]),
    ("interval", ["interval"]),
    ("boolean", ["boolean"]),
    ("json", ["json", "jsonb"]),
    ("jsonb", ["json", "jsonb"]),
    ("array", ["array"]) ]

/-- `TYPE_COMPATIBILITY_RULES[t]`: record-key lookup. -/
def lookupCompat (t : String) : Option (List String) :=
  (TYPE_COMPATIBILITY_RULES.find? (fun p => p.1 == t)).map (fun p => p.2)

/-- One direction of the check of `areTypesCompatible`: the class list of `t1`
exists and mentions `t2` (JS: `compatibleTypes && compatibleTypes.includes(type2)`). -/
def forwardCompatible (t1 t2 : String) : Bool :=
  match lookupCompat t1 with
  | some compatibleTypes => compatibleTypes.contains t2
  | none => false

/-- `areTypesCompatible(type1, type2)` (utils/typeCompatibility lines 41-58):
exact match, then forward class lookup, then reverse class lookup. -/
def areTypesCompatible (type1 type2 : String) : Bool :=
  if type1 == type2 then true
  else if forwardCompatible type1 type2 then true
  else if forwardCompatible type2 type1 then true
  else false

/-- A type string that has an entry in the compatibility table. -/
def isKnownType (t : String) : Bool :=
  (lookupCompat t).isSome

/-! ## Relationship creation (Canvas component, first variant) -/

/-- Outcome of a relationship-creation attempt (the Canvas reports these as
toast errors; we name them after the early-return sites). -/
inductive ResolveError where
  | invalidTableReference
  | fieldCreationFailed
  | duplicateRelationship
  deriving DecidableEq, Repr

/-- `createMatchingField` (Canvas lines 88-105): builds a foreign-key field
carrying the source field type and a back-reference, appends it to the target
table via `addField`, and returns it.  The non-deterministic
`field-Date.now()` id is passed in as `newFieldId`; `sourceTableId` models the
`tableId` the callers splice onto the source field object. -/
def createMatchingField (st : SchemaState) (targetTableId : String)
    (sourceFieldObj : Field) (sourceTableId : String)
    (sourceFieldName : String) (newFieldId : String) : SchemaState × Field :=
  let newField : Field :=
    { id := newFieldId,
      name := sourceFieldName,
      type := sourceFieldObj.type,
      isPrimaryKey := false,
      isForeignKey := true,
      isUnique := false,
      isNullable := true,
      defaultValue := none,
      references := some { table := sourceTableId, field := sourceFieldObj.id } }
  (addField st targetTableId newField, newField)

/-- The trigger condition of the target-field fallback (Canvas line 129):
`!targetField || !targetFieldType || !areTypesCompatible(...)`. -/
def needsResolution (targetField targetFieldType : Option String)
    (sourceFieldType : String) : Bool :=
  match targetField, targetFieldType with
  | some _, some tft => !areTypesCompatible sourceFieldType tft
  | _, _ => true

/-- The body of the target-field fallback (Canvas lines 130-161): search the
target table for a field with the source field name; reuse it when compatible,
otherwise create a `<name>_ref` field; when no name match exists create a field
with the same name.  When the source field cannot be found the code leaves
`finalTargetField` at the originally supplied value.  Returns the (possibly
mutated) state and the final target field id. -/
def resolveTargetField (st : SchemaState) (sourceTable targetTable : Table)
    (source target sourceField : String) (targetField : Option String)
    (sourceFieldName sourceFieldType : String) (newFieldId : String) :
    SchemaState × Option String :=
  match targetTable.fields.find? (fun f => f.name == sourceFieldName) with
  | some existingField =>
    if areTypesCompatible sourceFieldType existingField.type then
      (st, some existingField.id)
    else
      match sourceTable.fields.find? (fun f => f.id == sourceField) with
      | some sourceFieldObj =>
        let r := createMatchingField st target sourceFieldObj source
          (sourceFieldName ++ "_ref") newFieldId
        (r.1, some r.2.id)
      | none => (st, targetField)
  | none =>
    match sourceTable.fields.find? (fun f => f.id == sourceField) with
    | some sourceFieldObj =>
      let r := createMatchingField st target sourceFieldObj source
        sourceFieldName newFieldId
      (r.1, some r.2.id)
    | none => (st, targetField)

/-- Lines 125-162 of the Canvas as one step: run the fallback when it is
needed, otherwise keep the supplied target field. -/
def resolvedTargetField (st : SchemaState) (sourceTable targetTable : Table)
    (source target sourceField : String) (targetField : Option String)
    (sourceFieldName sourceFieldType : String) (targetFieldType : Option String)
    (newFieldId : String) : SchemaState × Option String :=
  if needsResolution targetField targetFieldType sourceFieldType then
    resolveTargetField st sourceTable targetTable source target sourceField
      targetField sourceFieldName sourceFieldType newFieldId
  else (st, targetField)

/-- The duplicate scan (Canvas lines 170-176): an existing relationship
connects the same field pair in either direction. -/
def duplicateCheck (rels : List Relationship)
    (source target sourceField finalTargetField : String) : Bool :=
  (rels.find? (fun rel =>
    (rel.source == source && rel.target == target &&
      rel.sourceField == sourceField && rel.targetField == finalTargetField) ||
    (rel.source == target && rel.target == source &&
      rel.sourceField == finalTargetField && rel.targetField == sourceField))).isSome

/-- `handleRelationshipCreation` (Canvas lines 107-197).  Table lookups, then
target-field resolution, then the duplicate scan (against the pre-call
relationship list, which no branch of the resolution changes), then
`addRelationship`.  `newFieldId`/`newRelId` stand for the `Date.now()` ids;
`targetFieldName` only feeds toast text and is ignored. -/
def handleRelationshipCreation (st : SchemaState)
    (source target sourceField : String) (targetField : Option String)
    (sourceFieldName : String) (targetFieldName : Option String)
    (sourceFieldType : String) (targetFieldType : Option String)
    (newFieldId newRelId : String) : SchemaState × Option ResolveError :=
  match st.tables.find? (fun t => t.id == source),
        st.tables.find? (fun t => t.id == target) with
  | some sourceTable, some targetTable =>
    let resolved := resolvedTargetField st sourceTable targetTable source target
      sourceField targetField sourceFieldName sourceFieldType targetFieldType
      newFieldId
    match resolved.2 with
    | none => (resolved.1, some ResolveError.fieldCreationFailed)
    | some finalTargetField =>
      if duplicateCheck st.relationships source target sourceField finalTargetField then
        (resolved.1, some ResolveError.duplicateRelationship)
      else
        (addRelationship resolved.1
          { id := newRelId, source := source, target := target,
            sourceField := sourceField, targetField := finalTargetField,
            type := "one-to-many" }, none)
  | _, _ => (st, some ResolveError.invalidTableReference)

/-- Handle string for a field of a table, as built by the canvas edges and
TableNode handles: `tableId-fieldId`. -/
def mkHandle (tableId fieldId : String) : String :=
  tableId ++ "-" ++ fieldId

/-- `isValidConnection` (Canvas lines 239-254, first variant): false when any
endpoint is missing or when the two handles coincide, true otherwise. -/
def isValidConnection (source target sourceHandle targetHandle : Option String) :
    Bool :=
  match source, target, sourceHandle, targetHandle with
  | some _, some _, some sh, some th => !(sh == th)
  | _, _, _, _ => false

/-- The proposition produced for claim statements: after a relationship-creation
step starting from `st`, the final target field `usedTargetField` was used —
either the duplicate scan fired and the relationship list is untouched, or the
one-to-many relationship onto `usedTargetField` was appended. -/
def UsedAsTargetField (st : SchemaState) (result : SchemaState × Option ResolveError)
    (source target sourceField usedTargetField newRelId : String) : Prop :=
  (result.2 = some ResolveError.duplicateRelationship ∧
    result.1.relationships = st.relationships) ∨
  (result.2 = none ∧
    result.1.relationships = st.relationships ++
      [{ id := newRelId, source := source, target := target,
         sourceField := sourceField, targetField := usedTargetField,
         type := "one-to-many" }])

/-! ## SQL emitter (utils/scriptGenerator.ts, `generateManualSupabaseScript`)

The source builds one big string by successive `script += piece` statements;
we model the output as the ordered list of those pieces (`List String`) and
recover the final text with `String.join`.  Both copies of
`generateManualSupabaseScript` in the repository are textually identical in
this function. -/

/-- JS truthiness of an optional string (`undefined`, `null` and `""` are
falsy). -/
def strTruthy : Option String → Bool
  | none => false
  | some s => !(s == "")

/-- Does the table declare a field with the given name
(`table.fields.some(f => f.name === n)`)? -/
def hasFieldNamed (t : Table) (n : String) : Bool :=
  t.fields.any (fun f => f.name == n)

/-- One column definition line (scriptGenerator lines 161-185). -/
def fieldDefSql (field : Field) : String :=
  let d0 := "  " ++ field.name ++ " " ++ field.type
  let d1 :=
    if field.isPrimaryKey then
      if field.type == "uuid" then d0 ++ " DEFAULT gen_random_uuid() PRIMARY KEY"
      else d0 ++ " PRIMARY KEY"
    else d0
  let d2 :=
    if strTruthy field.defaultValue && !field.isPrimaryKey then
      d1 ++ " DEFAULT " ++ field.defaultValue.getD ""
    else d1
  let d3 := if !field.isNullable then d2 ++ " NOT NULL" else d2
  if field.isUnique && !field.isPrimaryKey then d3 ++ " UNIQUE" else d3

/-- Summary line of one table in the header comment. -/
def tableSummaryLine (t : Table) : String :=
  "- public." ++ t.name ++ ": " ++ toString t.fields.length ++ " fields" ++
    (if t.enableRLS then " (RLS enabled)" else "")

/-- Summary line of one relationship in the header comment (the `?.` chains
print `undefined` for missing lookups, exactly as a JS template literal does). -/
def relSummaryLine (tables : List Table) (r : Relationship) : String :=
  let sourceTable := tables.find? (fun t => t.id == r.source)
  let targetTable := tables.find? (fun t => t.id == r.target)
  let sourceField := sourceTable.bind (fun t => t.fields.find? (fun f => f.id == r.sourceField))
  let targetField := targetTable.bind (fun t => t.fields.find? (fun f => f.id == r.targetField))
  "- " ++ ((sourceTable.map Table.name).getD "undefined") ++ "." ++
    ((sourceField.map Field.name).getD "undefined") ++ " → " ++
    ((targetTable.map Table.name).getD "undefined") ++ "." ++
    ((targetField.map Field.name).getD "undefined") ++ " (" ++ r.type ++ ")"

/-- The header block comment (scriptGenerator lines 135-154). -/
def headerChunk (tables : List Table) (relationships : List Relationship) : String :=
  "/*\n# Database Schema Migration\n\n## Summary\nThis migration creates " ++
    toString tables.length ++ " table(s) with " ++
    toString relationships.length ++ " relationship(s).\n\n## Tables\n" ++
    String.intercalate "\n" (tables.map tableSummaryLine) ++
    "\n\n## Relationships\n" ++
    (if relationships.length > 0 then
      String.intercalate "\n" (relationships.map (relSummaryLine tables))
    else "- No relationships defined") ++
    "\n*/\n\n"

/-- The CREATE TABLE block of one table (scriptGenerator lines 157-200),
including the synthesized `created_at`/`updated_at` columns. -/
def createTableChunks (table : Table) : List String :=
  let fieldDefinitions :=
    table.fields.map fieldDefSql ++
    (if !hasFieldNamed table "created_at" then
      ["  created_at timestamptz DEFAULT now() NOT NULL"] else []) ++
    (if !hasFieldNamed table "updated_at" then
      ["  updated_at timestamptz DEFAULT now() NOT NULL"] else [])
  [ "-- Create " ++ table.name ++ " table\n",
    "CREATE TABLE IF NOT EXISTS public." ++ table.name ++ " (\n",
    String.intercalate ",\n" fieldDefinitions,
    "\n);\n\n" ]

/-- The foreign-key block of one relationship (scriptGenerator lines 203-217);
nothing is emitted when any endpoint lookup fails. -/
def fkChunks (tables : List Table) (rel : Relationship) : List String :=
  let sourceTable := tables.find? (fun t => t.id == rel.source)
  let targetTable := tables.find? (fun t => t.id == rel.target)
  let sourceField := sourceTable.bind (fun t => t.fields.find? (fun f => f.id == rel.sourceField))
  let targetField := targetTable.bind (fun t => t.fields.find? (fun f => f.id == rel.targetField))
  match sourceTable, targetTable, sourceField, targetField with
  | some s, some t, some sf, some tf =>
    [ "-- Add foreign key constraint for " ++ s.name ++ "." ++ sf.name ++ "\n",
      "ALTER TABLE public." ++ s.name ++ "\n",
      "ADD CONSTRAINT " ++ s.name ++ "_" ++ sf.name ++ "_fkey\n",
      "FOREIGN KEY (" ++ sf.name ++ ")\n",
      "REFERENCES public." ++ t.name ++ " (" ++ tf.name ++ ")\n",
      "ON DELETE CASCADE;\n\n" ]
  | _, _, _, _ => []

/-- One CREATE POLICY block (scriptGenerator lines 234-250). -/
def policyChunks (tableName : String) (policy : Policy) : List String :=
  [ "-- Create policy: " ++ policy.name ++ "\n",
    "CREATE POLICY \"" ++ policy.name ++ "\"\n",
    "ON public." ++ tableName ++ "\n",
    "FOR " ++ policy.operation ++ "\n",
    "TO " ++ policy.role ++ "\n" ] ++
  (if strTruthy policy.usingClause then
    ["USING (" ++ policy.usingClause.getD "" ++ ")\n"] else []) ++
  (if strTruthy policy.withCheck then
    ["WITH CHECK (" ++ policy.withCheck.getD "" ++ ")\n"] else []) ++
  [";\n\n"]

/-- The RLS block of one table (scriptGenerator lines 220-253). -/
def rlsChunks (table : Table) : List String :=
  if table.enableRLS then
    [ "-- Enable RLS for " ++ table.name ++ "\n",
      "ALTER TABLE public." ++ table.name ++ " ENABLE ROW LEVEL SECURITY;\n\n" ] ++
    (if table.policies.length == 0 then
      [ "-- Default policy: authenticated users can manage their own data\n",
        "CREATE POLICY \"" ++ table.name ++ "_authenticated_policy\"\n",
        "ON public." ++ table.name ++ "\n",
        "FOR ALL\n",
        "TO authenticated\n",
        "USING (auth.uid() IS NOT NULL);\n\n" ]
    else table.policies.flatMap (policyChunks table.name))
  else []

/-- The index block of one relationship (scriptGenerator lines 256-265). -/
def indexChunks (tables : List Table) (rel : Relationship) : List String :=
  let sourceTable := tables.find? (fun t => t.id == rel.source)
  let sourceField := sourceTable.bind (fun t => t.fields.find? (fun f => f.id == rel.sourceField))
  match sourceTable, sourceField with
  | some s, some sf =>
    [ "-- Create index for foreign key performance\n",
      "CREATE INDEX IF NOT EXISTS idx_" ++ s.name ++ "_" ++ sf.name ++ "\n",
      "ON public." ++ s.name ++ " (" ++ sf.name ++ ");\n\n" ]
  | _, _ => []

/-- The comment line opening each trigger block. -/
def triggerCommentChunk : String :=
  "-- Add trigger to update updated_at timestamp\n"

/-- The `update_updated_at_column` trigger-function definition
(scriptGenerator lines 272-278). -/
def triggerFunctionDef : String :=
  "CREATE OR REPLACE FUNCTION update_updated_at_column()\nRETURNS TRIGGER AS $$\nBEGIN\n  NEW.updated_at = now();\n  RETURN NEW;\nEND;\n$$ LANGUAGE plpgsql;\n\n"

/-- The per-table CREATE TRIGGER statement (scriptGenerator lines 280-283),
written right-associated to ease reasoning about its prefix. -/
def createTriggerStmt (tableName : String) : String :=
  "CREATE TRIGGER update_" ++
    (tableName ++
      ("_updated_at\nBEFORE UPDATE ON public." ++
        (tableName ++ "\nFOR EACH ROW\nEXECUTE FUNCTION update_updated_at_column();\n\n")))

/-- The trigger block of one table (scriptGenerator lines 268-285): the source
emits the function definition and the trigger inside the loop, and only for
tables that do NOT declare an `updated_at` field. -/
def updateTriggerChunks (table : Table) : List String :=
  if hasFieldNamed table "updated_at" then []
  else [triggerCommentChunk, triggerFunctionDef, createTriggerStmt table.name]

/-- All pieces of `generateManualSupabaseScript` in emission order. -/
def manualSupabaseScriptChunks (tables : List Table)
    (relationships : List Relationship) : List String :=
  headerChunk tables relationships ::
    (tables.flatMap createTableChunks ++
     relationships.flatMap (fkChunks tables) ++
     tables.flatMap rlsChunks ++
     relationships.flatMap (indexChunks tables) ++
     tables.flatMap updateTriggerChunks)

/-- `generateManualSupabaseScript(schema)` (scriptGenerator lines 132-288). -/
def generateManualSupabaseScript (tables : List Table)
    (relationships : List Relationship) : String :=
  (String.join (manualSupabaseScriptChunks tables relationships)).trim

/-- Recognizer for CREATE TRIGGER statements: the first 15 characters read
`CREATE TRIGGER `. -/
def isCreateTriggerStmt (c : String) : Bool :=
  c.data.take 15 == ("CREATE TRIGGER ").data

/-! ## Concrete sample data for witnesses and counterexamples -/

/-- The empty store state. -/
def emptyState : SchemaState :=
  { tables := [], relationships := [], selectedTable := none,
    selectedRelationship := none, currentDesignId := none,
    currentDesignName := none }

/-- A relationship whose four endpoints exist nowhere. -/
def danglingRel : Relationship :=
  { id := "rel-1", source := "no-such-table", target := "missing-table",
    sourceField := "no-such-field", targetField := "missing-field",
    type := "one-to-many" }

/-- Scenario B source field: `users.id uuid` primary key. -/
def uuidPkField : Field :=
  { id := "users-id", name := "id", type := "uuid", isPrimaryKey := true,
    isForeignKey := false, isUnique := false, isNullable := false,
    defaultValue := none, references := none }

/-- Scenario B: `users` table. -/
def usersTable : Table :=
  { id := "users-table", name := "users", fields := [uuidPkField],
    enableRLS := false, policies := [] }

/-- Scenario B: `orders` table with no fields. -/
def ordersTable : Table :=
  { id := "orders-table", name := "orders", fields := [], enableRLS := false,
    policies := [] }

/-- Scenario B state: users and orders, no relationships. -/
def scenarioBState : SchemaState :=
  { tables := [usersTable, ordersTable], relationships := [],
    selectedTable := none, selectedRelationship := none,
    currentDesignId := none, currentDesignName := none }

/-- Scenario D field `a.x : uuid`. -/
def fieldAx : Field :=
  { id := "field-ax", name := "x", type := "uuid", isPrimaryKey := false,
    isForeignKey := false, isUnique := false, isNullable := true,
    defaultValue := none, references := none }

/-- Scenario D field `b.y : uuid`. -/
def fieldBy : Field :=
  { id := "field-by", name := "y", type := "uuid", isPrimaryKey := false,
    isForeignKey := false, isUnique := false, isNullable := true,
    defaultValue := none, references := none }

/-- Scenario D table `a`. -/
def tableWithX : Table :=
  { id := "table-a", name := "a", fields := [fieldAx], enableRLS := false,
    policies := [] }

/-- Scenario D table `b`. -/
def tableWithY : Table :=
  { id := "table-b", name := "b", fields := [fieldBy], enableRLS := false,
    policies := [] }

/-- Scenario D: the pre-existing link `(a.x, b.y)`. -/
def existingRelD : Relationship :=
  { id := "rel-d", source := "table-a", target := "table-b",
    sourceField := "field-ax", targetField := "field-by",
    type := "one-to-many" }

/-- Scenario D state: a and b already linked via `(a.x, b.y)`. -/
def scenarioDState : SchemaState :=
  { tables := [tableWithX, tableWithY], relationships := [existingRelD],
    selectedTable := none, selectedRelationship := none,
    currentDesignId := none, currentDesignName := none }

/-- Scenario C field `A.field1 : uuid`. -/
def selfField : Field :=
  { id := "field-1", name := "field1", type := "uuid", isPrimaryKey := false,
    isForeignKey := false, isUnique := false, isNullable := true,
    defaultValue := none, references := none }

/-- Scenario C table `A`. -/
def selfTable : Table :=
  { id := "table-self", name := "A", fields := [selfField], enableRLS := false,
    policies := [] }

/-- Scenario C state. -/
def selfState : SchemaState :=
  { tables := [selfTable], relationships := [], selectedTable := none,
    selectedRelationship := none, currentDesignId := none,
    currentDesignName := none }

/-- A relationship pointing at the protected auth.users system table. -/
def authRel : Relationship :=
  { id := "rel-auth", source := "profiles-table", target := "auth-users-table",
    sourceField := "profiles-user-id", targetField := "auth-users-id",
    type := "one-to-many" }

/-- A state with a relationship into auth.users and auth.users selected. -/
def authState : SchemaState :=
  { tables := [], relationships := [authRel],
    selectedTable := some "auth-users-table", selectedRelationship := none,
    currentDesignId := none, currentDesignName := none }

/-- Demo relationship for deleteTable cascade. -/
def demoRel : Relationship :=
  { id := "rel-demo", source := "table-a", target := "table-b",
    sourceField := "field-a", targetField := "field-b",
    type := "one-to-many" }

/-- Demo state for deleteTable cascade. -/
def demoState : SchemaState :=
  { tables := [], relationships := [demoRel],
    selectedTable := some "table-a", selectedRelationship := none,
    currentDesignId := none, currentDesignName := none }

/-- A fieldless table (gets synthesized timestamps and a trigger block). -/
def plainTableA : Table :=
  { id := "tbl-alpha", name := "alpha", fields := [], enableRLS := false,
    policies := [] }

/-- A second fieldless table. -/
def plainTableB : Table :=
  { id := "tbl-beta", name := "beta", fields := [], enableRLS := false,
    policies := [] }

/-- A declared `updated_at` column. -/
def updatedAtField : Field :=
  { id := "field-upd", name := "updated_at", type := "timestamptz",
    isPrimaryKey := false, isForeignKey := false, isUnique := false,
    isNullable := false, defaultValue := none, references := none }

/-- A table that declares its own `updated_at` field. -/
def tableWithUpdatedAt : Table :=
  { id := "tbl-gamma", name := "gamma", fields := [updatedAtField],
    enableRLS := false, policies := [] }

/-! ## Helper lemmas -/

theorem lookupCompat_none_of_not_known {a : String} (h : isKnownType a = false) :
    lookupCompat a = none := by
  unfold isKnownType at h
  exact Option.not_isSome_iff_eq_none.mp (by simp [h])

theorem forward_false_of_unknown_left (x y : String) (h : isKnownType x = false) :
    forwardCompatible x y = false := by
  unfold forwardCompatible
  rw [lookupCompat_none_of_not_known h]

theorem rules_values_known :
    ∀ p ∈ TYPE_COMPATIBILITY_RULES, ∀ t ∈ p.2, isKnownType t = true := by
  decide

theorem forward_false_of_unknown_right (x y : String) (h : isKnownType y = false) :
    forwardCompatible x y = false := by
  unfold forwardCompatible
  cases hx : lookupCompat x with
  | none => rfl
  | some l =>
    cases hc : l.contains y with
    | false => exact hc
    | true =>
      exfalso
      obtain ⟨p, hp, hpl⟩ : ∃ p, TYPE_COMPATIBILITY_RULES.find? (fun q => q.1 == x) = some p ∧ p.2 = l := by
        unfold lookupCompat at hx
        exact Option.map_eq_some'.mp hx
      have hpmem : p ∈ TYPE_COMPATIBILITY_RULES := List.mem_of_find?_eq_some hp
      have hymem : y ∈ p.2 := by
        rw [hpl]
        simpa using hc
      have := rules_values_known p hpmem y hymem
      rw [this] at h
      exact Bool.noConfusion h

/-! ## Claim theorems -/

/-- C5: the type compatibility oracle is symmetric: for every pair of type
strings (a, b), `areTypesCompatible a b` returns the same boolean as
`areTypesCompatible b a`, even when one type's class entry does not list the
other, because the implementation checks both lookup directions. -/
theorem c5_areTypesCompatible_symmetric (a b : String) :
    areTypesCompatible a b = areTypesCompatible b a := by
  unfold areTypesCompatible
  have hcomm : (a == b) = (b == a) := by
    by_cases h : a = b
    · subst h; rfl
    · have h2 : ¬ b = a := fun hba => h hba.symm
      simp [h, h2]
  rw [hcomm]
  cases hba : (b == a) with
  | true => simp
  | false =>
    simp only [Bool.false_eq_true, if_false]
    cases h1 : forwardCompatible a b <;> cases h2 : forwardCompatible b a <;>
      simp [h1, h2]

/-- C9 counterexample: `areTypesCompatible` does NOT return false for every
pair involving an unknown type: the exact-match shortcut makes two equal
unknown strings compatible.  Here "foo" has no entry in the compatibility
table, yet `areTypesCompatible "foo" "foo"` is true. -/
theorem c9_unknown_exact_match_cex :
    areTypesCompatible "foo" "foo" = true ∧ isKnownType "foo" = false :=
  ⟨rfl, rfl⟩

/-- C9 amended: `areTypesCompatible` is total by construction and returns
false whenever either argument is unknown AND the two arguments are distinct
strings; identical unknown strings are declared compatible by the exact-match
rule. -/
theorem c9_unknown_types_incompatible (a b : String) (hne : a ≠ b)
    (hunk : isKnownType a = false ∨ isKnownType b = false) :
    areTypesCompatible a b = false := by
  have hab : (a == b) = false := by simp [hne]
  unfold areTypesCompatible
  rcases hunk with h | h
  · have h1 : forwardCompatible a b = false := forward_false_of_unknown_left a b h
    have h2 : forwardCompatible b a = false := forward_false_of_unknown_right b a h
    simp [hab, h1, h2]
  · have h1 : forwardCompatible a b = false := forward_false_of_unknown_right a b h
    have h2 : forwardCompatible b a = false := forward_false_of_unknown_left b a h
    simp [hab, h1, h2]

/-- C9 witness: the amended theorem applied at the concrete unknown pair
("foo", "bar"). -/
theorem c9_unknown_types_incompatible_witness :
    "foo" ≠ "bar" ∧ areTypesCompatible "foo" "bar" = false :=
  ⟨by decide, c9_unknown_types_incompatible "foo" "bar" (by decide) (Or.inl rfl)⟩

/-- C7: after `deleteField tableId fieldId`, no relationship in the graph
references the deleted field id as its sourceField or targetField. -/
theorem c7_deleteField_cascade (st : SchemaState) (tableId fieldId : String) :
    ((deleteField st tableId fieldId).relationships.all
      (fun r => !(r.sourceField == fieldId) && !(r.targetField == fieldId))) = true := by
  simp only [deleteField]
  rw [List.all_eq_true]
  intro r hr
  have h := (List.mem_filter.mp hr).2
  simpa [Bool.not_or] using h

/-- C10: calling `updateTable` or `deleteTable` with the id
"auth-users-table" is a complete no-op: the entire store state is returned
unchanged, so the auth.users system table can never be modified or deleted
through the mutation API. -/
theorem c10_auth_users_protected (st : SchemaState) (patch : Table → Table) :
    updateTable st "auth-users-table" patch = st ∧
    deleteTable st "auth-users-table" = st := by
  constructor <;> simp [updateTable, deleteTable]

/-- C3 counterexample: `addRelationship` does not reject a relationship whose
endpoints are missing: on the empty state it happily appends a relationship
all four of whose endpoints exist nowhere, instead of failing and leaving the
relationships list unchanged. -/
theorem c3_no_referential_check_cex :
    (addRelationship emptyState danglingRel).relationships = [danglingRel] ∧
    emptyState.tables = [] :=
  ⟨rfl, rfl⟩

/-- C3 amended: `addRelationship` performs no structural validation at all: for
every state and every relationship — including ones with dangling endpoints —
it appends the relationship to the relationships list and leaves the tables
untouched. -/
theorem c3_addRelationship_appends (st : SchemaState) (rel : Relationship) :
    (addRelationship st rel).relationships = st.relationships ++ [rel] ∧
    (addRelationship st rel).tables = st.tables :=
  ⟨rfl, rfl⟩

/-- C4 counterexample: the event-driven resolve path has no same-field guard:
on a state with table `table-self` holding field `field-1`, a resolve call
with source and target designating that same table and field creates a
self-loop relationship — a lookup and a mutation happen, instead of the
request being rejected. -/
theorem c4_event_path_self_link_cex :
    (handleRelationshipCreation selfState "table-self" "table-self" "field-1"
        (some "field-1") "field1" (some "field1") "uuid" (some "uuid")
        "field-999" "rel-999").1.relationships
      = [{ id := "rel-999", source := "table-self", target := "table-self",
           sourceField := "field-1", targetField := "field-1",
           type := "one-to-many" }] ∧
    selfState.relationships = [] :=
  ⟨rfl, rfl⟩

/-- C4 amended: only the drag-connect validation rejects a same-table
same-field request — `isValidConnection` returns false whenever the two
connection handles coincide, which identical table and field guarantee — while
the event-driven path reaching `handleRelationshipCreation` performs no such
check and will mutate the graph. -/
theorem c4_drag_path_rejects_self (source target : Option String)
    (tbl fld : String) :
    isValidConnection source target (some (mkHandle tbl fld))
      (some (mkHandle tbl fld)) = false := by
  cases source <;> cases target <;> simp [isValidConnection, mkHandle]

/-- C6 counterexample: `deleteTable "auth-users-table"` is a guarded no-op, so
a relationship referencing the auth.users table survives the delete and a
selection pointing at it is not cleared — the cascade claim fails for that id. -/
theorem c6_auth_users_cascade_cex :
    ((deleteTable authState "auth-users-table").relationships.any
      (fun r => r.source == "auth-users-table" || r.target == "auth-users-table")
        = true) ∧
    (deleteTable authState "auth-users-table").selectedTable
        = some "auth-users-table" :=
  ⟨rfl, rfl⟩

/-- C6 amended: for every table id other than the protected
"auth-users-table", after `deleteTable` no relationship references the deleted
id as source or target, and the selection is cleared exactly when it pointed
at the deleted id; for "auth-users-table" the call is a no-op. -/
theorem c6_deleteTable_cascade (st : SchemaState) (id : String)
    (h : id ≠ "auth-users-table") :
    ((deleteTable st id).relationships.all
        (fun r => !(r.source == id) && !(r.target == id)) = true) ∧
    (deleteTable st id).selectedTable
        = (if st.selectedTable = some id then none else st.selectedTable) := by
  have hg : (id == "auth-users-table") = false := by simp [h]
  simp only [deleteTable, hg, Bool.false_eq_true, if_false]
  constructor
  · rw [List.all_eq_true]
    intro r hr
    exact (List.mem_filter.mp hr).2
  · cases hs : st.selectedTable with
    | none => simp
    | some s =>
      by_cases hse : s = id
      · subst hse; simp
      · simp [hse]

/-- C6 witness: the amended cascade theorem applied to a concrete state with
one relationship touching "table-a" and "table-a" selected. -/
theorem c6_deleteTable_cascade_witness :
    ((deleteTable demoState "table-a").relationships.all
        (fun r => !(r.source == "table-a") && !(r.target == "table-a")) = true) ∧
    (deleteTable demoState "table-a").selectedTable
        = (if demoState.selectedTable = some "table-a" then none
           else demoState.selectedTable) :=
  c6_deleteTable_cascade demoState "table-a" (by decide)

/-! ## Resolver helper lemmas -/

theorem addField_relationships (st : SchemaState) (tableId : String) (f : Field) :
    (addField st tableId f).relationships = st.relationships := rfl

theorem addRelationship_tables (st : SchemaState) (rel : Relationship) :
    (addRelationship st rel).tables = st.tables := rfl

theorem resolvedTargetField_of_needed (st : SchemaState)
    (sourceTable targetTable : Table) (source target sourceField : String)
    (targetField : Option String) (sourceFieldName sourceFieldType : String)
    (targetFieldType : Option String) (newFieldId : String)
    (hres : needsResolution targetField targetFieldType sourceFieldType = true) :
    resolvedTargetField st sourceTable targetTable source target sourceField
        targetField sourceFieldName sourceFieldType targetFieldType newFieldId
      = resolveTargetField st sourceTable targetTable source target sourceField
          targetField sourceFieldName sourceFieldType newFieldId := by
  simp [resolvedTargetField, hres]

theorem resolveTargetField_reuse (st : SchemaState)
    (sourceTable targetTable : Table) (source target sourceField : String)
    (targetField : Option String) (sourceFieldName sourceFieldType : String)
    (newFieldId : String) (ef : Field)
    (hfind : targetTable.fields.find? (fun f => f.name == sourceFieldName) = some ef)
    (hcompat : areTypesCompatible sourceFieldType ef.type = true) :
    resolveTargetField st sourceTable targetTable source target sourceField
        targetField sourceFieldName sourceFieldType newFieldId
      = (st, some ef.id) := by
  simp [resolveTargetField, hfind, hcompat]

theorem resolveTargetField_ref (st : SchemaState)
    (sourceTable targetTable : Table) (source target sourceField : String)
    (targetField : Option String) (sourceFieldName sourceFieldType : String)
    (newFieldId : String) (ef sfObj : Field)
    (hfind : targetTable.fields.find? (fun f => f.name == sourceFieldName) = some ef)
    (hcompat : areTypesCompatible sourceFieldType ef.type = false)
    (hsf : sourceTable.fields.find? (fun f => f.id == sourceField) = some sfObj) :
    resolveTargetField st sourceTable targetTable source target sourceField
        targetField sourceFieldName sourceFieldType newFieldId
      = (addField st target
          { id := newFieldId, name := sourceFieldName ++ "_ref",
            type := sfObj.type, isPrimaryKey := false, isForeignKey := true,
            isUnique := false, isNullable := true, defaultValue := none,
            references := some { table := source, field := sfObj.id } },
         some newFieldId) := by
  simp [resolveTargetField, createMatchingField, hfind, hcompat, hsf]

theorem resolveTargetField_fresh (st : SchemaState)
    (sourceTable targetTable : Table) (source target sourceField : String)
    (targetField : Option String) (sourceFieldName sourceFieldType : String)
    (newFieldId : String) (sfObj : Field)
    (hfind : targetTable.fields.find? (fun f => f.name == sourceFieldName) = none)
    (hsf : sourceTable.fields.find? (fun f => f.id == sourceField) = some sfObj) :
    resolveTargetField st sourceTable targetTable source target sourceField
        targetField sourceFieldName sourceFieldType newFieldId
      = (addField st target
          { id := newFieldId, name := sourceFieldName,
            type := sfObj.type, isPrimaryKey := false, isForeignKey := true,
            isUnique := false, isNullable := true, defaultValue := none,
            references := some { table := source, field := sfObj.id } },
         some newFieldId) := by
  simp [resolveTargetField, createMatchingField, hfind, hsf]

theorem handle_finish (st st1 : SchemaState) (sourceTable targetTable : Table)
    (source target sourceField : String) (targetField : Option String)
    (sourceFieldName : String) (targetFieldName : Option String)
    (sourceFieldType : String) (targetFieldType : Option String)
    (newFieldId newRelId ftf : String)
    (hsrc : st.tables.find? (fun t => t.id == source) = some sourceTable)
    (htgt : st.tables.find? (fun t => t.id == target) = some targetTable)
    (hstep : resolvedTargetField st sourceTable targetTable source target
        sourceField targetField sourceFieldName sourceFieldType targetFieldType
        newFieldId = (st1, some ftf)) :
    handleRelationshipCreation st source target sourceField targetField
        sourceFieldName targetFieldName sourceFieldType targetFieldType
        newFieldId newRelId
      = (if duplicateCheck st.relationships source target sourceField ftf then
          (st1, some ResolveError.duplicateRelationship)
         else
          (addRelationship st1
            { id := newRelId, source := source, target := target,
              sourceField := sourceField, targetField := ftf,
              type := "one-to-many" }, none)) := by
  simp only [handleRelationshipCreation, hsrc, htgt, hstep]

theorem usedAs_of_finish (st st1 : SchemaState) (sourceTable targetTable : Table)
    (source target sourceField : String) (targetField : Option String)
    (sourceFieldName : String) (targetFieldName : Option String)
    (sourceFieldType : String) (targetFieldType : Option String)
    (newFieldId newRelId ftf : String)
    (hsrc : st.tables.find? (fun t => t.id == source) = some sourceTable)
    (htgt : st.tables.find? (fun t => t.id == target) = some targetTable)
    (hstep : resolvedTargetField st sourceTable targetTable source target
        sourceField targetField sourceFieldName sourceFieldType targetFieldType
        newFieldId = (st1, some ftf))
    (hr : st1.relationships = st.relationships) :
    (handleRelationshipCreation st source target sourceField targetField
        sourceFieldName targetFieldName sourceFieldType targetFieldType
        newFieldId newRelId).1.tables = st1.tables ∧
    UsedAsTargetField st
      (handleRelationshipCreation st source target sourceField targetField
        sourceFieldName targetFieldName sourceFieldType targetFieldType
        newFieldId newRelId)
      source target sourceField ftf newRelId := by
  rw [handle_finish st st1 sourceTable targetTable source target sourceField
    targetField sourceFieldName targetFieldName sourceFieldType targetFieldType
    newFieldId newRelId ftf hsrc htgt hstep]
  by_cases hdup : duplicateCheck st.relationships source target sourceField ftf = true
  · rw [if_pos hdup]
    exact ⟨rfl, Or.inl ⟨rfl, hr⟩⟩
  · rw [if_neg hdup]
    refine ⟨rfl, Or.inr ⟨rfl, ?_⟩⟩
    show st1.relationships ++ _ = st.relationships ++ _
    rw [hr]

theorem resolveTargetField_noSrc_named (st : SchemaState)
    (sourceTable targetTable : Table) (source target sourceField : String)
    (targetField : Option String) (sourceFieldName sourceFieldType : String)
    (newFieldId : String) (ef : Field)
    (hfind : targetTable.fields.find? (fun f => f.name == sourceFieldName) = some ef)
    (hcompat : areTypesCompatible sourceFieldType ef.type = false)
    (hsf : sourceTable.fields.find? (fun f => f.id == sourceField) = none) :
    resolveTargetField st sourceTable targetTable source target sourceField
        targetField sourceFieldName sourceFieldType newFieldId
      = (st, targetField) := by
  simp [resolveTargetField, hfind, hcompat, hsf]

theorem resolveTargetField_noSrc_unnamed (st : SchemaState)
    (sourceTable targetTable : Table) (source target sourceField : String)
    (targetField : Option String) (sourceFieldName sourceFieldType : String)
    (newFieldId : String)
    (hfind : targetTable.fields.find? (fun f => f.name == sourceFieldName) = none)
    (hsf : sourceTable.fields.find? (fun f => f.id == sourceField) = none) :
    resolveTargetField st sourceTable targetTable source target sourceField
        targetField sourceFieldName sourceFieldType newFieldId
      = (st, targetField) := by
  simp [resolveTargetField, hfind, hsf]

theorem resolvedTargetField_dichotomy (st : SchemaState)
    (sourceTable targetTable : Table) (source target sourceField : String)
    (targetField : Option String) (sourceFieldName sourceFieldType : String)
    (targetFieldType : Option String) (newFieldId : String) :
    (resolvedTargetField st sourceTable targetTable source target sourceField
        targetField sourceFieldName sourceFieldType targetFieldType newFieldId
      = (st, (resolvedTargetField st sourceTable targetTable source target
          sourceField targetField sourceFieldName sourceFieldType targetFieldType
          newFieldId).2)) ∨
    ((resolvedTargetField st sourceTable targetTable source target sourceField
        targetField sourceFieldName sourceFieldType targetFieldType
        newFieldId).2 = some newFieldId) := by
  by_cases hres : needsResolution targetField targetFieldType sourceFieldType = true
  · have heq := resolvedTargetField_of_needed st sourceTable targetTable source
      target sourceField targetField sourceFieldName sourceFieldType
      targetFieldType newFieldId hres
    cases hfind : targetTable.fields.find? (fun f => f.name == sourceFieldName) with
    | some ef =>
      by_cases hc : areTypesCompatible sourceFieldType ef.type = true
      · left
        rw [heq, resolveTargetField_reuse st sourceTable targetTable source
          target sourceField targetField sourceFieldName sourceFieldType
          newFieldId ef hfind hc]
      · have hc' : areTypesCompatible sourceFieldType ef.type = false :=
          Bool.eq_false_iff.mpr hc
        cases hsf : sourceTable.fields.find? (fun f => f.id == sourceField) with
        | some sfObj =>
          right
          rw [heq, resolveTargetField_ref st sourceTable targetTable source
            target sourceField targetField sourceFieldName sourceFieldType
            newFieldId ef sfObj hfind hc' hsf]
        | none =>
          left
          rw [heq, resolveTargetField_noSrc_named st sourceTable targetTable
            source target sourceField targetField sourceFieldName
            sourceFieldType newFieldId ef hfind hc' hsf]
    | none =>
      cases hsf : sourceTable.fields.find? (fun f => f.id == sourceField) with
      | some sfObj =>
        right
        rw [heq, resolveTargetField_fresh st sourceTable targetTable source
          target sourceField targetField sourceFieldName sourceFieldType
          newFieldId sfObj hfind hsf]
      | none =>
        left
        rw [heq, resolveTargetField_noSrc_unnamed st sourceTable targetTable
          source target sourceField targetField sourceFieldName
          sourceFieldType newFieldId hfind hsf]
  · have heqn : resolvedTargetField st sourceTable targetTable source target
        sourceField targetField sourceFieldName sourceFieldType targetFieldType
        newFieldId = (st, targetField) := by
      simp [resolvedTargetField, Bool.eq_false_iff.mpr hres]
    left
    rw [heqn]

theorem duplicateCheck_fresh (rels : List Relationship)
    (source target sourceField x : String)
    (hfresh : rels.all
      (fun r => !(r.sourceField == x) && !(r.targetField == x)) = true) :
    duplicateCheck rels source target sourceField x = false := by
  unfold duplicateCheck
  cases hf : rels.find? (fun rel =>
    (rel.source == source && rel.target == target &&
      rel.sourceField == sourceField && rel.targetField == x) ||
    (rel.source == target && rel.target == source &&
      rel.sourceField == x && rel.targetField == sourceField)) with
  | none => rfl
  | some rel =>
    exfalso
    have hp := List.find?_some hf
    have hm := List.mem_of_find?_eq_some hf
    have hfr := List.all_eq_true.mp hfresh rel hm
    simp only [Bool.and_eq_true, Bool.not_eq_true'] at hfr
    obtain ⟨h1, h2⟩ := hfr
    simp [h1, h2] at hp

/-- C1: in a resolve call that enters target-field resolution (no target field
supplied, or its type missing or incompatible), with valid source and target
tables and an existing source field: if the target table has a field named
like the source field and of compatible type, it is reused and no field is
created; if the like-named field is incompatible, a new `<name>_ref` field
with the source field type and foreign-key flags
(isForeignKey, isNullable, not isUnique, references back to the source) is
appended to the target table and used; if no like-named field exists, a field
with the source field name and type (same foreign-key flags) is appended and
used. -/
theorem c1_target_field_resolution (st : SchemaState)
    (sourceTable targetTable : Table) (source target sourceField : String)
    (targetField : Option String) (sourceFieldName : String)
    (targetFieldName : Option String) (sourceFieldType : String)
    (targetFieldType : Option String) (newFieldId newRelId : String)
    (sfObj : Field)
    (hsrc : st.tables.find? (fun t => t.id == source) = some sourceTable)
    (htgt : st.tables.find? (fun t => t.id == target) = some targetTable)
    (hres : needsResolution targetField targetFieldType sourceFieldType = true)
    (hsf : sourceTable.fields.find? (fun f => f.id == sourceField) = some sfObj) :
    (∀ ef, targetTable.fields.find? (fun f => f.name == sourceFieldName) = some ef →
      areTypesCompatible sourceFieldType ef.type = true →
      (handleRelationshipCreation st source target sourceField targetField
        sourceFieldName targetFieldName sourceFieldType targetFieldType
        newFieldId newRelId).1.tables = st.tables ∧
      UsedAsTargetField st
        (handleRelationshipCreation st source target sourceField targetField
          sourceFieldName targetFieldName sourceFieldType targetFieldType
          newFieldId newRelId)
        source target sourceField ef.id newRelId) ∧
    (∀ ef, targetTable.fields.find? (fun f => f.name == sourceFieldName) = some ef →
      areTypesCompatible sourceFieldType ef.type = false →
      (handleRelationshipCreation st source target sourceField targetField
        sourceFieldName targetFieldName sourceFieldType targetFieldType
        newFieldId newRelId).1.tables
        = (addField st target
            { id := newFieldId, name := sourceFieldName ++ "_ref",
              type := sfObj.type, isPrimaryKey := false, isForeignKey := true,
              isUnique := false, isNullable := true, defaultValue := none,
              references := some { table := source, field := sourceField } }).tables ∧
      UsedAsTargetField st
        (handleRelationshipCreation st source target sourceField targetField
          sourceFieldName targetFieldName sourceFieldType targetFieldType
          newFieldId newRelId)
        source target sourceField newFieldId newRelId) ∧
    (targetTable.fields.find? (fun f => f.name == sourceFieldName) = none →
      (handleRelationshipCreation st source target sourceField targetField
        sourceFieldName targetFieldName sourceFieldType targetFieldType
        newFieldId newRelId).1.tables
        = (addField st target
            { id := newFieldId, name := sourceFieldName,
              type := sfObj.type, isPrimaryKey := false, isForeignKey := true,
              isUnique := false, isNullable := true, defaultValue := none,
              references := some { table := source, field := sourceField } }).tables ∧
      UsedAsTargetField st
        (handleRelationshipCreation st source target sourceField targetField
          sourceFieldName targetFieldName sourceFieldType targetFieldType
          newFieldId newRelId)
        source target sourceField newFieldId newRelId) := by
  have hid : sfObj.id = sourceField := by
    have hpred := List.find?_some hsf
    simpa using hpred
  refine ⟨?_, ?_, ?_⟩
  · intro ef hfind hcompat
    have hstep := (resolvedTargetField_of_needed st sourceTable targetTable
      source target sourceField targetField sourceFieldName sourceFieldType
      targetFieldType newFieldId hres).trans
      (resolveTargetField_reuse st sourceTable targetTable source target
        sourceField targetField sourceFieldName sourceFieldType newFieldId ef
        hfind hcompat)
    exact usedAs_of_finish st st sourceTable targetTable source target
      sourceField targetField sourceFieldName targetFieldName sourceFieldType
      targetFieldType newFieldId newRelId ef.id hsrc htgt hstep rfl
  · intro ef hfind hcompat
    have hstep := (resolvedTargetField_of_needed st sourceTable targetTable
      source target sourceField targetField sourceFieldName sourceFieldType
      targetFieldType newFieldId hres).trans
      (resolveTargetField_ref st sourceTable targetTable source target
        sourceField targetField sourceFieldName sourceFieldType newFieldId ef
        sfObj hfind hcompat hsf)
    have h2 := usedAs_of_finish st
      (addField st target
        { id := newFieldId, name := sourceFieldName ++ "_ref",
          type := sfObj.type, isPrimaryKey := false, isForeignKey := true,
          isUnique := false, isNullable := true, defaultValue := none,
          references := some { table := source, field := sfObj.id } })
      sourceTable targetTable source target sourceField targetField
      sourceFieldName targetFieldName sourceFieldType targetFieldType
      newFieldId newRelId newFieldId hsrc htgt hstep rfl
    rw [hid] at h2
    exact h2
  · intro hfind
    have hstep := (resolvedTargetField_of_needed st sourceTable targetTable
      source target sourceField targetField sourceFieldName sourceFieldType
      targetFieldType newFieldId hres).trans
      (resolveTargetField_fresh st sourceTable targetTable source target
        sourceField targetField sourceFieldName sourceFieldType newFieldId
        sfObj hfind hsf)
    have h2 := usedAs_of_finish st
      (addField st target
        { id := newFieldId, name := sourceFieldName,
          type := sfObj.type, isPrimaryKey := false, isForeignKey := true,
          isUnique := false, isNullable := true, defaultValue := none,
          references := some { table := source, field := sfObj.id } })
      sourceTable targetTable source target sourceField targetField
      sourceFieldName targetFieldName sourceFieldType targetFieldType
      newFieldId newRelId newFieldId hsrc htgt hstep rfl
    rw [hid] at h2
    exact h2

/-- C1 witness: Scenario B — resolving users.id (uuid) onto the fieldless
orders table creates the foreign-key field orders.id and appends the
relationship onto it. -/
theorem c1_target_field_resolution_witness :
    (handleRelationshipCreation scenarioBState "users-table" "orders-table"
        "users-id" none "id" none "uuid" none "field-100" "rel-100").1.tables
      = (addField scenarioBState "orders-table"
          { id := "field-100", name := "id", type := uuidPkField.type,
            isPrimaryKey := false, isForeignKey := true, isUnique := false,
            isNullable := true, defaultValue := none,
            references := some { table := "users-table", field := "users-id" } }).tables ∧
    UsedAsTargetField scenarioBState
      (handleRelationshipCreation scenarioBState "users-table" "orders-table"
        "users-id" none "id" none "uuid" none "field-100" "rel-100")
      "users-table" "orders-table" "users-id" "field-100" "rel-100" :=
  (c1_target_field_resolution scenarioBState usersTable ordersTable
    "users-table" "orders-table" "users-id" none "id" none "uuid" none
    "field-100" "rel-100" uuidPkField rfl rfl rfl rfl).2.2 rfl

/-- C2: when the resolved target field is fresh with respect to the existing
relationships and the duplicate scan finds an existing relationship connecting
the same `(source, sourceField)` and `(target, finalTargetField)` pair in
either direction, the resolve call returns the state completely unchanged
together with the DuplicateRelationship error — no field and no relationship
is added. -/
theorem c2_duplicate_no_mutation (st : SchemaState)
    (sourceTable targetTable : Table) (source target sourceField : String)
    (targetField : Option String) (sourceFieldName : String)
    (targetFieldName : Option String) (sourceFieldType : String)
    (targetFieldType : Option String) (newFieldId newRelId ftf : String)
    (hsrc : st.tables.find? (fun t => t.id == source) = some sourceTable)
    (htgt : st.tables.find? (fun t => t.id == target) = some targetTable)
    (hftf : (resolvedTargetField st sourceTable targetTable source target
        sourceField targetField sourceFieldName sourceFieldType targetFieldType
        newFieldId).2 = some ftf)
    (hfresh : st.relationships.all
      (fun r => !(r.sourceField == newFieldId) && !(r.targetField == newFieldId))
        = true)
    (hdup : duplicateCheck st.relationships source target sourceField ftf = true) :
    handleRelationshipCreation st source target sourceField targetField
        sourceFieldName targetFieldName sourceFieldType targetFieldType
        newFieldId newRelId
      = (st, some ResolveError.duplicateRelationship) := by
  rcases resolvedTargetField_dichotomy st sourceTable targetTable source target
    sourceField targetField sourceFieldName sourceFieldType targetFieldType
    newFieldId with hst | hnf
  · rw [hftf] at hst
    rw [handle_finish st st sourceTable targetTable source target sourceField
      targetField sourceFieldName targetFieldName sourceFieldType
      targetFieldType newFieldId newRelId ftf hsrc htgt hst, if_pos hdup]
  · exfalso
    rw [hftf] at hnf
    have hx : ftf = newFieldId := Option.some.inj hnf
    rw [hx] at hdup
    rw [duplicateCheck_fresh st.relationships source target sourceField
      newFieldId hfresh] at hdup
    exact Bool.noConfusion hdup

/-- C2 witness: Scenario D — resolving a.x onto b.y again, with the link
already present, reports DuplicateRelationship and leaves the state intact. -/
theorem c2_duplicate_no_mutation_witness :
    duplicateCheck scenarioDState.relationships "table-a" "table-b" "field-ax"
      "field-by" = true ∧
    handleRelationshipCreation scenarioDState "table-a" "table-b" "field-ax"
        (some "field-by") "x" (some "y") "uuid" (some "uuid") "field-200"
        "rel-200"
      = (scenarioDState, some ResolveError.duplicateRelationship) :=
  ⟨rfl, c2_duplicate_no_mutation scenarioDState tableWithX tableWithY "table-a"
    "table-b" "field-ax" (some "field-by") "x" (some "y") "uuid" (some "uuid")
    "field-200" "rel-200" "field-by" rfl rfl rfl rfl rfl⟩

/-! ## Emitter lemmas -/

theorem string_data_append (a b : String) : (a ++ b).data = a.data ++ b.data :=
  rfl

theorem createTriggerStmt_getD7 (n : String) :
    (createTriggerStmt n).data.getD 7 ' ' = 'T' := by
  unfold createTriggerStmt
  rw [string_data_append]
  rw [List.getD_append]
  · decide
  · decide

set_option maxRecDepth 4000 in
theorem createTriggerStmt_ne_funcdef (n : String) :
    (createTriggerStmt n == triggerFunctionDef) = false := by
  rw [beq_eq_false_iff_ne]
  intro h
  have h7 : (createTriggerStmt n).data.getD 7 ' '
      = triggerFunctionDef.data.getD 7 ' ' := by rw [h]
  rw [createTriggerStmt_getD7] at h7
  exact absurd h7 (by decide)

set_option maxRecDepth 4000 in
theorem isCreateTriggerStmt_createTriggerStmt (n : String) :
    isCreateTriggerStmt (createTriggerStmt n) = true := by
  unfold isCreateTriggerStmt createTriggerStmt
  rw [string_data_append]
  rw [List.take_append_of_le_length (by decide)]
  decide

set_option maxRecDepth 4000 in
theorem updateTriggerChunks_count_funcdef (t : Table) :
    (updateTriggerChunks t).count triggerFunctionDef
      = (if hasFieldNamed t "updated_at" then 0 else 1) := by
  unfold updateTriggerChunks
  by_cases h : hasFieldNamed t "updated_at" = true
  · rw [if_pos h, if_pos h]
    rfl
  · rw [if_neg h, if_neg h]
    simp [List.count_cons, createTriggerStmt_ne_funcdef t.name,
      (by decide : (triggerCommentChunk == triggerFunctionDef) = false)]

set_option maxRecDepth 4000 in
theorem updateTriggerChunks_countP_trigger (t : Table) :
    (updateTriggerChunks t).countP isCreateTriggerStmt
      = (if hasFieldNamed t "updated_at" then 0 else 1) := by
  unfold updateTriggerChunks
  by_cases h : hasFieldNamed t "updated_at" = true
  · rw [if_pos h, if_pos h]
    rfl
  · rw [if_neg h, if_neg h]
    simp [List.countP_cons, isCreateTriggerStmt_createTriggerStmt t.name,
      (by decide : isCreateTriggerStmt triggerCommentChunk = false),
      (by decide : isCreateTriggerStmt triggerFunctionDef = false)]

set_option maxRecDepth 40000 in
/-- C8 counterexample: with two tables lacking a declared `updated_at` field
the emitted script contains the `update_updated_at_column` trigger-function
definition twice, not once; and a table that does declare `updated_at` gets
neither the function definition nor any CREATE TRIGGER statement, although the
claim promises one trigger per table that has an `updated_at` field. -/
theorem c8_trigger_emission_cex :
    ((manualSupabaseScriptChunks [plainTableA, plainTableB] []).count
        triggerFunctionDef = 2) ∧
    ((manualSupabaseScriptChunks [tableWithUpdatedAt] []).count
        triggerFunctionDef = 0) ∧
    ((manualSupabaseScriptChunks [tableWithUpdatedAt] []).countP
        isCreateTriggerStmt = 0) :=
  ⟨rfl, rfl, rfl⟩

/-- C8 amended: in the emitted statement sequence, the trigger-function
definition and the CREATE TRIGGER statement are each emitted once per table
that LACKS a declared `updated_at` field (the tables whose `updated_at` column
the emitter synthesizes): n copies of the function definition for n such
tables, and no trigger at all for tables that declare `updated_at` themselves. -/
theorem c8_trigger_emission_per_lacking_table (tables : List Table) :
    ((tables.flatMap updateTriggerChunks).count triggerFunctionDef
      = (tables.filter (fun t => !(hasFieldNamed t "updated_at"))).length) ∧
    ((tables.flatMap updateTriggerChunks).countP isCreateTriggerStmt
      = (tables.filter (fun t => !(hasFieldNamed t "updated_at"))).length) := by
  induction tables with
  | nil => exact ⟨rfl, rfl⟩
  | cons t ts ih =>
    rw [List.flatMap_cons, List.count_append, List.countP_append,
      List.filter_cons]
    by_cases h : hasFieldNamed t "updated_at" = true
    · have hnot : (!(hasFieldNamed t "updated_at")) = false := by rw [h]; rfl
      rw [hnot]
      simp only [Bool.false_eq_true, if_false]
      rw [updateTriggerChunks_count_funcdef, updateTriggerChunks_countP_trigger,
        if_pos h]
      exact ⟨by rw [Nat.zero_add, ih.1], by rw [Nat.zero_add, ih.2]⟩
    · have hf : hasFieldNamed t "updated_at" = false := Bool.eq_false_iff.mpr h
      have hnot : (!(hasFieldNamed t "updated_at")) = true := by rw [hf]; rfl
      rw [hnot]
      simp only [if_true]
      rw [updateTriggerChunks_count_funcdef, updateTriggerChunks_countP_trigger,
        if_neg h, List.length_cons]
      exact ⟨by rw [ih.1, Nat.add_comm], by rw [ih.2, Nat.add_comm]⟩

end VSD
